import Mathlib

/-!
# Verification of the argus-mcp model-call orchestration engine

Shallow embedding of `src/models.py` (retry controller, diagnostics log,
call-result formatting, fallback orchestrator) into Lean 4, together with
theorems settling the behavioural claims about it.

Conventions of the embedding:
* Python exceptions become constructors of explicit error types
  (`ApiError` for the httpx exception classes, `PyExc` for the builtin
  exceptions raised by subscripting / attribute access).
* The configuration module (`config.py`, not part of the sources here)
  supplies `RETRY_ATTEMPTS`, `RETRY_MIN_WAIT`, `RETRY_MAX_WAIT`,
  `RETRY_STATUS_CODES`, the `MODELS` registry and `get_fallback_models`;
  these are taken as parameters (a `RetryConfig` structure, an association
  list registry, and an explicit fallback list), so every theorem holds for
  every possible configuration.
* The network is an oracle: a function from the attempt index to the
  outcome of `_call_api`.
* `float` arithmetic of the cost computation is modelled with exact
  rationals (`ℚ`); the concrete values of the claims are exactly
  representable, so no rounding behaviour is at stake.
* The wall-clock timestamp `datetime.now().isoformat()` is passed to
  `log_error` as an explicit argument (the ambient clock reading).
-/

namespace Argus

/-- The retry-relevant configuration constants imported from `config.py`:
`RETRY_ATTEMPTS`, `RETRY_STATUS_CODES`, `RETRY_MIN_WAIT`, `RETRY_MAX_WAIT`. -/
structure RetryConfig where
  attempts : Nat
  statusCodes : List Nat
  minWait : ℚ
  maxWait : ℚ
deriving Repr

/-- The exceptions `_call_api` can raise, as caught by
`_call_api_with_retry` and `verify_code`: `httpx.HTTPStatusError`
(carrying `e.response.status_code` and `e.response.text`),
`httpx.TimeoutException`, `httpx.ConnectError`, and any other exception
(carrying `type(e).__name__` and `str(e)`). -/
inductive ApiError where
  | httpStatus (code : Nat) (text : String)
  | timeout
  | connectError (msg : String)
  | other (name : String) (msg : String)
deriving DecidableEq, Repr

/-- Is this failure retried by `_call_api_with_retry`?  Only an
`httpx.HTTPStatusError` whose status code is in `RETRY_STATUS_CODES`. -/
def ApiError.retryable (cfg : RetryConfig) : ApiError → Bool
  | .httpStatus code _ => code ∈ cfg.statusCodes
  | _ => false

/-- Observable trace of one run of `_call_api_with_retry`: the value
returned or the exception finally raised, the number of calls made to
`_call_api`, and the sequence of the `asyncio.sleep` backoff waits. -/
structure RetryTrace (α : Type) where
  result : Except ApiError α
  attemptsMade : Nat
  waits : List ℚ
deriving Repr

/-- The loop body of `_call_api_with_retry`, entered at loop counter
`attempt` with the current `last_error`.  Mirrors the source: a successful
call returns at once; an `httpx.HTTPStatusError` with a status outside
`RETRY_STATUS_CODES` is re-raised; a retryable one sleeps
`min(RETRY_MIN_WAIT * 2 ** attempt, RETRY_MAX_WAIT)` unless this was the
final attempt, then continues the loop; any other exception is re-raised;
when the range is exhausted, `raise last_error` (Python raises `TypeError`
if `last_error` is still `None`, which happens only when
`RETRY_ATTEMPTS = 0`). -/
def retryLoop {α : Type} (cfg : RetryConfig) (call : Nat → Except ApiError α)
    (attempt : Nat) (lastError : Option ApiError) : RetryTrace α :=
  if attempt < cfg.attempts then
    match call attempt with
    | .ok v => ⟨.ok v, attempt + 1, []⟩
    | .error e =>
      match e with
      | .httpStatus code text =>
        if code ∈ cfg.statusCodes then
          let ws : List ℚ :=
            if attempt < cfg.attempts - 1 then
              [min (cfg.minWait * 2 ^ attempt) cfg.maxWait]
            else []
          let rest := retryLoop cfg call (attempt + 1) (some (.httpStatus code text))
          ⟨rest.result, rest.attemptsMade, ws ++ rest.waits⟩
        else ⟨.error e, attempt + 1, []⟩
      | _ => ⟨.error e, attempt + 1, []⟩
  else
    ⟨.error (lastError.getD (.other "TypeError"
        "exceptions must derive from BaseException")), attempt, []⟩
termination_by cfg.attempts - attempt

/-- `ModelProvider._call_api_with_retry`: run the retry loop from
attempt 0 with `last_error = None`. -/
def callApiWithRetry {α : Type} (cfg : RetryConfig)
    (call : Nat → Except ApiError α) : RetryTrace α :=
  retryLoop cfg call 0 none

/-! ## JSON values and Python builtin exceptions

`response.json()` yields an arbitrary JSON value; `verify_code` then
subscripts it (`data["choices"][0]["message"]["content"]`), which in
Python can raise `KeyError`, `IndexError` or `TypeError`.  We model the
value and those operations explicitly. -/

/-- A parsed JSON value, as returned by `response.json()`.  Python floats
are modelled by exact rationals. -/
inductive Json where
  | null
  | bool (b : Bool)
  | num (q : ℚ)
  | str (s : String)
  | arr (xs : List Json)
  | obj (fields : List (String × Json))

/-- The Python builtin exceptions that subscripting, attribute access or
arithmetic on a JSON value can raise. -/
inductive PyExc where
  | keyError (key : String)
  | indexError
  | typeError (msg : String)
  | attributeError (msg : String)
deriving DecidableEq, Repr

/-- `type(e).__name__` for a builtin exception. -/
def PyExc.name : PyExc → String
  | .keyError _ => "KeyError"
  | .indexError => "IndexError"
  | .typeError _ => "TypeError"
  | .attributeError _ => "AttributeError"

/-- `str(e)` for a builtin exception (`str` of a `KeyError` is the
`repr` of the missing key). -/
def PyExc.msg : PyExc → String
  | .keyError k => "'" ++ k ++ "'"
  | .indexError => "list index out of range"
  | .typeError m => m
  | .attributeError m => m

/-- Python subscripting `value[key]` with a string key: dict lookup
(raising `KeyError` when absent), `TypeError` on anything else. -/
def Json.getKey : Json → String → Except PyExc Json
  | .obj fields, k =>
    match fields.lookup k with
    | some v => .ok v
    | none => .error (.keyError k)
  | .arr _, _ => .error (.typeError "list indices must be integers or slices, not str")
  | .str _, _ => .error (.typeError "string indices must be integers")
  | _, _ => .error (.typeError "object is not subscriptable")

/-- Python subscripting `value[i]` with an int index: list indexing
(raising `IndexError` out of range), one-character string for strings,
`KeyError` for dicts without that int key, `TypeError` otherwise. -/
def Json.getIdx : Json → Nat → Except PyExc Json
  | .arr xs, i =>
    match xs.get? i with
    | some v => .ok v
    | none => .error .indexError
  | .str s, i =>
    match s.data.get? i with
    | some c => .ok (.str (String.mk [c]))
    | none => .error .indexError
  | .obj _, i => .error (.keyError (toString i))
  | _, _ => .error (.typeError "object is not subscriptable")

/-- Python `value.get(key, default)`: defined for dicts, raises
`AttributeError` on any non-dict. -/
def Json.dictGet : Json → String → Json → Except PyExc Json
  | .obj fields, k, dflt => .ok ((fields.lookup k).getD dflt)
  | _, _, _ => .error (.attributeError "object has no attribute get")

/-- Python truthiness of a JSON value (`if not usage: ...`). -/
def Json.truthy : Json → Bool
  | .null => false
  | .bool b => b
  | .num q => q != 0
  | .str s => s != ""
  | .arr xs => !xs.isEmpty
  | .obj fields => !fields.isEmpty

/-- Python numeric coercion for `total_tokens / 1000`: numbers and bools
(`bool` is an `int` subclass) are numeric, everything else raises
`TypeError`. -/
def Json.asNum : Json → Except PyExc ℚ
  | .num q => .ok q
  | .bool b => .ok (if b then 1 else 0)
  | _ => .error (.typeError "unsupported operand type for division")

/-- `ModelProvider._calculate_cost`: `0.0` for a falsy (absent or empty)
usage dict, else `(usage.get("total_tokens", 0) / 1000) * cost_per_1k`,
where `cost_per_1k` is the provider's
`config.get("cost_per_1k_tokens", 0.0)`. -/
def calculate_cost (costPer1k : ℚ) (usage : Json) : Except PyExc ℚ :=
  if usage.truthy then do
    let totalTokens ← usage.dictGet "total_tokens" (.num 0)
    let n ← totalTokens.asNum
    pure ((n / 1000) * costPer1k)
  else .ok 0

/-- Python string slicing `s[:n]`: the first `n` characters (code
points). -/
def pyTake (s : String) (n : Nat) : String := String.mk (s.data.take n)

/-! ## Diagnostics log (`_error_log`, `log_error`, `get_error_log`) -/

/-- One entry of the diagnostics log, as built by `log_error`. -/
structure DiagEntry where
  timestamp : String
  model : String
  error_type : String
  details : String
  status_code : Option Nat
deriving DecidableEq, Repr

/-- The dict literal built inside `log_error`: the `details` string is
truncated to 500 characters; `timestamp` is the caller-supplied reading
of `datetime.now().isoformat()`. -/
def mkDiagEntry (ts model error_type details : String)
    (status_code : Option Nat) : DiagEntry :=
  ⟨ts, model, error_type, pyTake details 500, status_code⟩

/-- `_error_log.append(entry)` followed by `if len(_error_log) > 50:
_error_log.pop(0)`. -/
def pushEntry (log : List DiagEntry) (e : DiagEntry) : List DiagEntry :=
  let log1 := log ++ [e]
  if log1.length > 50 then log1.drop 1 else log1

/-- `log_error(model, error_type, details, status_code)` acting on the
process-wide `_error_log` (passed and returned explicitly; the stderr
print is not part of the functional state). -/
def log_error (log : List DiagEntry) (ts model error_type details : String)
    (status_code : Option Nat) : List DiagEntry :=
  pushEntry log (mkDiagEntry ts model error_type details status_code)

/-- One call to `log_error`, reified so that sequences of record
operations can be replayed. -/
structure RecordOp where
  ts : String
  model : String
  error_type : String
  details : String
  status_code : Option Nat
deriving DecidableEq, Repr

/-- Replay a sequence of `log_error` calls against the empty initial
`_error_log`. -/
def runLog (ops : List RecordOp) : List DiagEntry :=
  ops.foldl (fun l o => log_error l o.ts o.model o.error_type o.details o.status_code) []

/-- The entry a single `RecordOp` appends. -/
def RecordOp.entry (o : RecordOp) : DiagEntry :=
  mkDiagEntry o.ts o.model o.error_type o.details o.status_code

/-! To express that `get_error_log` returns a *copy* (mutation-safe for
callers), Python list objects are given explicit identities: a heap of
list objects addressed by allocation order, with the internal
`_error_log` living at address 0. -/

/-- A heap of Python list-of-dict objects; an address is an index into
the allocation list. -/
structure LogHeap where
  heap : List (List DiagEntry)

/-- Read the list object at an address (unallocated addresses read as
empty, they are never used). -/
def LogHeap.read (s : LogHeap) (a : Nat) : List DiagEntry :=
  s.heap.getD a []

/-- Mutate the list object at an address in place. -/
def LogHeap.write (s : LogHeap) (a : Nat) (v : List DiagEntry) : LogHeap :=
  ⟨s.heap.set a v⟩

/-- Allocate a fresh list object, returning its address. -/
def LogHeap.alloc (s : LogHeap) (v : List DiagEntry) : LogHeap × Nat :=
  (⟨s.heap ++ [v]⟩, s.heap.length)

/-- The address of the process-wide `_error_log`. -/
def errorLogAddr : Nat := 0

/-- `get_error_log()`: `return _error_log.copy()` — allocates a fresh
list object holding the current contents of the internal log. -/
def get_error_log (s : LogHeap) : LogHeap × Nat :=
  s.alloc (s.read errorLogAddr)

/-! ## `format_error_for_user` -/

/-- `s.lower()` (ASCII-adequate model of `str.lower`). -/
def pyLower (s : String) : String := s.map Char.toLower

/-- Python `needle in hay` for strings: substring containment. -/
def containsSub (hay needle : String) : Bool :=
  (List.range (hay.data.length + 1)).any fun i => needle.data.isPrefixOf (hay.data.drop i)

/-- The two lines appended for one displayed entry of
`format_error_for_user`: the model/error-kind headline (with the HTTP
status suffix only when `err.get('status_code')` is truthy) and the
truncated details line. -/
def entryLines (err : DiagEntry) : List String :=
  let status := match err.status_code with
    | some c => if c != 0 then " (HTTP " ++ toString c ++ ")" else ""
    | none => ""
  ["- **" ++ err.model ++ "**: " ++ err.error_type ++ status,
   "  - " ++ pyTake err.details 150]

/-- `has_401 = any(e.get('status_code') == 401 for e in errors)` — the
scan runs over the whole list handed to `format_error_for_user`. -/
def has_401 (errors : List DiagEntry) : Bool :=
  errors.any fun e => e.status_code == some 401

/-- `has_429 = any(e.get('status_code') == 429 for e in errors)`. -/
def has_429 (errors : List DiagEntry) : Bool :=
  errors.any fun e => e.status_code == some 429

/-- `has_timeout = any('timeout' in e.get('details', '').lower() ...)`. -/
def has_timeout (errors : List DiagEntry) : Bool :=
  errors.any fun e => containsSub (pyLower e.details) "timeout"

/-- `has_connection = any('connect' in e.get('details', '').lower() ...)`. -/
def has_connection (errors : List DiagEntry) : Bool :=
  errors.any fun e => containsSub (pyLower e.details) "connect"

/-- The cause-analysis lines of `format_error_for_user`: the four
`has_*` scans run over the whole `errors` argument, and the generic
advice is appended only when none of them hits. -/
def causeLines (errors : List DiagEntry) : List String :=
  (if has_401 errors then
    ["- **Invalid API Key**: Check your `.env` file. Keys may be expired or incorrect."]
   else []) ++
  (if has_429 errors then
    ["- **Rate Limited**: You've hit the API rate limit. Wait a few minutes."]
   else []) ++
  (if has_timeout errors then
    ["- **Timeout**: API is slow or overloaded. Try again later or reduce payload size."]
   else []) ++
  (if has_connection errors then
    ["- **Connection Error**: Network issue. Check your internet connection."]
   else []) ++
  (if !(has_401 errors || has_429 errors || has_timeout errors || has_connection errors) then
    ["- Check API provider status pages (z.ai, OpenRouter)",
     "- Verify API keys are valid and have credits"]
   else [])

/-- `format_error_for_user(errors)`: the fixed message on an empty list;
otherwise the joined header, per-entry lines for `errors[-5:]` only, the
causes header, and the cause analysis of the full list. -/
def format_error_for_user (errors : List DiagEntry) : String :=
  if errors.isEmpty then "No errors recorded."
  else String.intercalate "\n"
    (["## Recent Errors\n"]
      ++ (errors.drop (errors.length - 5)).flatMap entryLines
      ++ ["\n## Possible Causes\n"]
      ++ causeLines errors)

/-! ## Model registry and provider resolution (`MODELS`, `ModelProvider.__init__`, `ModelManager.get_provider`) -/

/-- One entry of the `MODELS` registry from `config.py` (a dict in the
source).  The fields are the ones the core reads; `timeout` and
`cost_per_1k_tokens` are accessed via `.get` with defaults 60 and 0.0,
so an absent key is `none`. -/
structure ModelCfg where
  name : String
  provider : String
  api_key : String
  enabled : Bool
  base_url : String
  model_id : String
  timeout : Option ℚ := none
  cost_per_1k_tokens : Option ℚ := none
deriving DecidableEq, Repr

/-- `ModelProvider.__init__`: `ValueError` (a configuration error) when
the key is not in `MODELS` or the config is not enabled; otherwise the
provider holds the config.  No network request is made here. -/
def ModelProvider.init (MODELS : List (String × ModelCfg))
    (model_key : String) : Except String ModelCfg :=
  match MODELS.lookup model_key with
  | none => .error ("Unknown model: " ++ model_key)
  | some config =>
    if !config.enabled then
      .error ("Model " ++ model_key ++ " is not enabled (missing API key)")
    else .ok config

/-- Outcome of `ModelManager.get_provider`: the updated `_providers`
cache, the provider served, and (instrumentation) whether this call ran
`ModelProvider.__init__` or returned the cached instance. -/
structure GetProviderResult where
  providers : List (String × ModelCfg)
  provider : ModelCfg
  constructed : Bool
deriving DecidableEq, Repr

/-- `ModelManager.get_provider`: construct and cache the provider on a
cache miss, otherwise return the instance stored at first resolution. -/
def get_provider (MODELS : List (String × ModelCfg))
    (providers : List (String × ModelCfg)) (model_key : String) :
    Except String GetProviderResult :=
  match providers.lookup model_key with
  | some p => .ok ⟨providers, p, false⟩
  | none =>
    match ModelProvider.init MODELS model_key with
    | .error e => .error e
    | .ok p => .ok ⟨providers ++ [(model_key, p)], p, true⟩

/-! ## `ModelProvider.verify_code` -/

/-- The value of an `error_code` entry in a failure dict: an HTTP status
(int) or one of the string tags `"TIMEOUT"` / `"CONNECTION_ERROR"`. -/
inductive PyCode where
  | int (n : Nat)
  | str (s : String)
deriving DecidableEq, Repr

/-- Python truthiness of an `error_code` value (`if e.get("error_code")`
filters out `None`, `0` and `""`). -/
def PyCode.truthy : PyCode → Bool
  | .int n => n != 0
  | .str s => s != ""

/-- The success dict built by `verify_code`; `fallback_used` and
`primary_model_failed` are absent (`none`) until the orchestrator adds
them. -/
structure SuccessDict where
  verdict : Json
  model : String
  model_key : String
  tokens_used : Json
  cost : ℚ
  fallback_used : Option Bool := none
  primary_model_failed : Option String := none

/-- The dict returned by `verify_code`: a success dict
(`success: True`), or a failure dict (`success: False`) with the error
message and the optional `error_code` entry. -/
inductive CallOutcome where
  | ok (res : SuccessDict)
  | fail (error : String) (error_code : Option PyCode)

/-- One run of `verify_code`: its returned dict together with the
`log_error` events it emitted, in order. -/
structure VerifyRun where
  outcome : CallOutcome
  logged : List DiagEntry

/-- `data["choices"][0]["message"]["content"]`. -/
def extractVerdict (data : Json) : Except PyExc Json := do
  let choices ← data.getKey "choices"
  let first ← choices.getIdx 0
  let message ← first.getKey "message"
  message.getKey "content"

/-- `ModelProvider.verify_code` given the outcome of
`_call_api_with_retry` (the oracle `callResult`): on a returned JSON
body, extract the verdict and build the success dict (any `KeyError` /
`IndexError` / `TypeError` / `AttributeError` falls through to the
generic `except Exception` handler); on a raised exception, dispatch on
its class exactly as the four `except` clauses do, logging each failure
via `log_error`. -/
def verify_code (config : ModelCfg) (model_key : String) (ts : String)
    (callResult : Except ApiError Json) : VerifyRun :=
  match callResult with
  | .ok data =>
    let build : Except PyExc SuccessDict := do
      let verdict ← extractVerdict data
      let usage ← data.dictGet "usage" (.obj [])
      let cost ← calculate_cost (config.cost_per_1k_tokens.getD 0) usage
      pure { verdict := verdict, model := config.name, model_key := model_key,
             tokens_used := usage, cost := cost }
    match build with
    | .ok res => ⟨.ok res, []⟩
    | .error e =>
      let error_msg := e.name ++ ": " ++ e.msg
      ⟨.fail error_msg none, [mkDiagEntry ts model_key e.name error_msg none]⟩
  | .error (.httpStatus code text) =>
    let error_msg := "API Error: " ++ toString code ++ " - " ++ pyTake text 300
    ⟨.fail error_msg (some (.int code)),
     [mkDiagEntry ts model_key "HTTP Error" error_msg (some code)]⟩
  | .error .timeout =>
    let error_msg := "Request timed out after " ++ toString (config.timeout.getD 60) ++ "s"
    ⟨.fail error_msg (some (.str "TIMEOUT")),
     [mkDiagEntry ts model_key "Timeout" error_msg none]⟩
  | .error (.connectError m) =>
    let error_msg := "Connection failed: " ++ m
    ⟨.fail error_msg (some (.str "CONNECTION_ERROR")),
     [mkDiagEntry ts model_key "Connection Error" error_msg none]⟩
  | .error (.other n m) =>
    let error_msg := n ++ ": " ++ m
    ⟨.fail error_msg none, [mkDiagEntry ts model_key n error_msg none]⟩

/-! ## `ModelManager.verify_with_fallback`

The behaviour of `self.get_provider(m)` followed by
`provider.verify_code(...)` for one model key is an oracle
`behave : String → AttemptOutcome`: either the `VerifyRun` the call
returned, or an exception (of arbitrary class, e.g. the `ValueError`
raised by provider resolution) that escaped into the orchestrator's
`except Exception` clause. -/

/-- What one model's attempt does, as seen by the orchestrator. -/
inductive AttemptOutcome where
  | result (run : VerifyRun)
  | exc (name msg : String)

/-- Did the attempt produce anything other than a success dict? -/
def AttemptOutcome.failed : AttemptOutcome → Bool
  | .result ⟨.ok _, _⟩ => false
  | _ => true

/-- One entry of `errors_collected`.  A dict built for a returned
failure carries an `error_code` key (possibly `None`); the dict built in
the `except` clause has no such key — both read back through
`e.get("error_code")` as the same `Option`, so `none` models both. -/
structure CollectedError where
  model : String
  error : String
  error_code : Option PyCode
deriving DecidableEq, Repr

/-- The `errors_collected` entry appended for a failed attempt
(unused filler on a success, which never reaches collection). -/
def collectEntry (m : String) : AttemptOutcome → CollectedError
  | .result ⟨.fail err code, _⟩ => ⟨m, err, code⟩
  | .exc n msg => ⟨m, n ++ ": " ++ msg, none⟩
  | .result ⟨.ok _, _⟩ => ⟨m, "", none⟩

/-- The dict `verify_with_fallback` returns: the success dict passed
through (possibly extended with fallback metadata), or the all-models-
failed dict — which additionally carries the constants `success: False`,
`model: "None"`, `model_key: None`. -/
inductive FallbackResult where
  | success (res : SuccessDict)
  | allFailed (error : String) (error_details : String)
      (recommendations : List String) (errors : List CollectedError)

/-- Python `repr` of a list of strings, as interpolated into the
all-failed message (`f"... Fallbacks: {fallback_models}"`). -/
def pyReprStrList (xs : List String) : String :=
  "[" ++ String.intercalate ", " (xs.map fun s => "'" ++ s ++ "'") ++ "]"

/-- The recommendation line emitted when a collected `error_code` is the
int 401. -/
def credentialRec : String := "🔑 Check API keys in `.env` file"

/-- The all-models-failed dict: formatted per-model details, the
recommendation analysis over the collected error codes (Python
truthiness filters out `None`, `0`, `""`) and the lower-cased joined
error texts, with generic guidance when nothing matched. -/
def mkAllFailed (primary_model : String) (fallback_models : List String)
    (errors_collected : List CollectedError) : FallbackResult :=
  let error_details := String.intercalate "\n"
    (errors_collected.map fun e => "  - " ++ e.model ++ ": " ++ pyTake e.error 100)
  let error_codes := (errors_collected.filterMap fun e => e.error_code).filter PyCode.truthy
  let error_texts := pyLower (String.intercalate " " (errors_collected.map fun e => e.error))
  let recs :=
    (if error_codes.contains (.int 401) then [credentialRec] else []) ++
    (if error_codes.contains (.int 429) then ["⏳ Rate limited - wait a few minutes"] else []) ++
    (if containsSub error_texts "timeout" then ["⏱️ Timeout - try smaller code or wait"] else []) ++
    (if containsSub error_texts "connect" then ["🌐 Network error - check connection"] else [])
  let recommendations :=
    if recs.isEmpty then
      ["🔍 Check API provider status pages", "💳 Verify API keys have credits"]
    else recs
  .allFailed
    ("All models failed. Primary: " ++ primary_model
      ++ ", Fallbacks: " ++ pyReprStrList fallback_models)
    error_details recommendations errors_collected

/-- One run of `verify_with_fallback`: the returned dict, the
`log_error` events emitted during the run (from `verify_code` internals
and from the orchestrator's own `except` clauses), and the ordered list
of model keys actually attempted (instrumentation). -/
structure FallbackRun where
  result : FallbackResult
  logged : List DiagEntry
  attempted : List String

/-- State accumulated by the `for model_key in fallback_models:` loop:
the first success (if any), the `errors_collected` entries the loop
appended, the `log_error` events it emitted, and the model keys it
attempted. -/
structure SweepResult where
  success : Option SuccessDict
  collected : List CollectedError
  logged : List DiagEntry
  attempted : List String

/-- The `log_error` events attributable to one model's attempt: the
events `verify_code` emitted when it returned, or the orchestrator's
single `Provider Error` record when the attempt raised. -/
def attemptLogged (ts m : String) : AttemptOutcome → List DiagEntry
  | .result ⟨_, lg⟩ => lg
  | .exc n msg => [mkDiagEntry ts m "Provider Error" (n ++ ": " ++ msg) none]

/-- The `for model_key in fallback_models:` loop: each failing model
appends its `errors_collected` entry (logging `Provider Error` on a
raised exception); the first success dict is returned extended with
`fallback_used = True` and `primary_model_failed`, short-circuiting the
loop. -/
def sweepLoop (behave : String → AttemptOutcome) (ts primary_model : String) :
    List String → SweepResult
  | [] => ⟨none, [], [], []⟩
  | m :: rest =>
    match behave m with
    | .result ⟨.ok res, lg⟩ =>
      ⟨some { res with fallback_used := some true, primary_model_failed := some primary_model },
       [], lg, [m]⟩
    | .result ⟨.fail err code, lg⟩ =>
      let r := sweepLoop behave ts primary_model rest
      ⟨r.success, ⟨m, err, code⟩ :: r.collected, lg ++ r.logged, m :: r.attempted⟩
    | .exc n msg =>
      let emsg := n ++ ": " ++ msg
      let r := sweepLoop behave ts primary_model rest
      ⟨r.success, ⟨m, emsg, none⟩ :: r.collected,
       mkDiagEntry ts m "Provider Error" emsg none :: r.logged, m :: r.attempted⟩

/-- `ModelManager.verify_with_fallback`: try the primary model inside a
`try/except Exception` (a success returns at once, unchanged; a failure
or exception becomes the first `errors_collected` entry, exceptions also
logged as `Provider Error`); then walk `fallback_models` via
`sweepLoop`; if nothing succeeded, assemble the all-failed dict. -/
def verify_with_fallback (behave : String → AttemptOutcome)
    (fallback_models : List String) (ts primary_model : String) : FallbackRun :=
  match behave primary_model with
  | .result ⟨.ok res, lg⟩ => ⟨.success res, lg, [primary_model]⟩
  | .result ⟨.fail err code, lg⟩ =>
    match sweepLoop behave ts primary_model fallback_models with
    | ⟨some res, _, l, a⟩ => ⟨.success res, lg ++ l, primary_model :: a⟩
    | ⟨none, c, l, a⟩ =>
      ⟨mkAllFailed primary_model fallback_models (⟨primary_model, err, code⟩ :: c),
       lg ++ l, primary_model :: a⟩
  | .exc n msg =>
    match sweepLoop behave ts primary_model fallback_models with
    | ⟨some res, _, l, a⟩ =>
      ⟨.success res,
       [mkDiagEntry ts primary_model "Provider Error" (n ++ ": " ++ msg) none] ++ l,
       primary_model :: a⟩
    | ⟨none, c, l, a⟩ =>
      ⟨mkAllFailed primary_model fallback_models
          ((⟨primary_model, n ++ ": " ++ msg, none⟩ : CollectedError) :: c),
       [mkDiagEntry ts primary_model "Provider Error" (n ++ ": " ++ msg) none] ++ l,
       primary_model :: a⟩

/-- The `recommendations` entry of the returned dict (empty for a
success dict, which has no such key). -/
def FallbackResult.recsOf : FallbackResult → List String
  | .allFailed _ _ recs _ => recs
  | .success _ => []

/-- The `errors` entry of the returned dict (empty for a success dict,
which has no such key). -/
def FallbackResult.errorsOf : FallbackResult → List CollectedError
  | .allFailed _ _ _ errs => errs
  | .success _ => []

/-! # Theorems -/

/-- When every attempt from loop counter `k` on fails with a retryable
HTTP status, the retry loop runs to exhaustion: it surfaces the error of
the final attempt, makes `cfg.attempts` calls in total, and sleeps the
capped exponential backoff after every non-final attempt. -/
theorem retryLoop_allRetryable {α : Type} (cfg : RetryConfig)
    (call : Nat → Except ApiError α) (code : Nat → Nat) (text : Nat → String)
    (hfail : ∀ i, i < cfg.attempts → call i = .error (.httpStatus (code i) (text i)))
    (hcode : ∀ i, i < cfg.attempts → code i ∈ cfg.statusCodes) :
    ∀ j k, cfg.attempts - k = j → k < cfg.attempts → ∀ lastError,
      retryLoop cfg call k lastError =
        ⟨.error (.httpStatus (code (cfg.attempts - 1)) (text (cfg.attempts - 1))),
         cfg.attempts,
         (List.range' k (cfg.attempts - 1 - k)).map
           (fun i => min (cfg.minWait * 2 ^ i) cfg.maxWait)⟩ := by
  intro j
  induction j with
  | zero => intro k hj hk _; omega
  | succ j ih =>
    intro k hj hk lastError
    rw [retryLoop, if_pos hk, hfail k hk]
    simp only
    rw [if_pos (hcode k hk)]
    by_cases hlast : k < cfg.attempts - 1
    · rw [if_pos hlast, ih (k + 1) (by omega) (by omega)]
      have hrange : cfg.attempts - 1 - k = (cfg.attempts - 1 - (k + 1)) + 1 := by omega
      rw [hrange, List.range'_succ, List.map_cons]
      rfl
    · have hk1 : k = cfg.attempts - 1 := by omega
      subst hk1
      rw [if_neg hlast, retryLoop, if_neg (by omega)]
      have h2 : cfg.attempts - 1 - (cfg.attempts - 1) = 0 := by omega
      have h3 : cfg.attempts - 1 + 1 = cfg.attempts := by omega
      simp [h2, h3]

/-- C1: when every attempt fails with an `HttpError` whose status is in
`RETRY_STATUS_CODES`, `_call_api_with_retry` makes exactly
`RETRY_ATTEMPTS` calls, surfaces the failure of the final attempt, and
the wait after attempt `i` (0-indexed) is
`min(RETRY_MIN_WAIT * 2^i, RETRY_MAX_WAIT)`, with no wait after the
final attempt (the wait list has `RETRY_ATTEMPTS - 1` elements). -/
theorem retry_exhausts_all_attempts {α : Type} (cfg : RetryConfig)
    (call : Nat → Except ApiError α) (code : Nat → Nat) (text : Nat → String)
    (hpos : 0 < cfg.attempts)
    (hfail : ∀ i, i < cfg.attempts → call i = .error (.httpStatus (code i) (text i)))
    (hcode : ∀ i, i < cfg.attempts → code i ∈ cfg.statusCodes) :
    callApiWithRetry cfg call =
      ⟨.error (.httpStatus (code (cfg.attempts - 1)) (text (cfg.attempts - 1))),
       cfg.attempts,
       (List.range (cfg.attempts - 1)).map
         (fun i => min (cfg.minWait * 2 ^ i) cfg.maxWait)⟩ := by
  rw [callApiWithRetry,
    retryLoop_allRetryable cfg call code text hfail hcode cfg.attempts 0 rfl hpos none,
    List.range_eq_range']
  rfl

/-- Witness for C1 at a concrete configuration: 3 attempts, retry set
{429, 500, 502, 503, 504}, min wait 1, max wait 10, every attempt
failing with HTTP 429 — three calls, waits 1 then 2, final 429 error
surfaced. -/
theorem retry_exhausts_all_attempts_witness :
    callApiWithRetry ⟨3, [429, 500, 502, 503, 504], 1, 10⟩
        (fun _ => (.error (.httpStatus 429 "rate limited") : Except ApiError Nat)) =
      ⟨.error (.httpStatus 429 "rate limited"), 3, [1, 2]⟩ := by
  have h := retry_exhausts_all_attempts (α := Nat)
    ⟨3, [429, 500, 502, 503, 504], 1, 10⟩
    (fun _ => .error (.httpStatus 429 "rate limited"))
    (fun _ => 429) (fun _ => "rate limited")
    (by decide) (by intro i _; rfl) (by intro i _; exact List.Mem.head _)
  rw [h]
  norm_num
  decide

/-- C5: a first attempt failing non-retryably (an `HttpError` whose
status is outside `RETRY_STATUS_CODES`, or any non-HTTP failure) makes
`_call_api_with_retry` re-raise at once: one call, no backoff wait. -/
theorem retry_nonretryable_single_attempt {α : Type} (cfg : RetryConfig)
    (call : Nat → Except ApiError α) (e : ApiError)
    (hpos : 0 < cfg.attempts)
    (hcall : call 0 = .error e)
    (hnr : e.retryable cfg = false) :
    callApiWithRetry cfg call = ⟨.error e, 1, []⟩ := by
  rw [callApiWithRetry, retryLoop, if_pos hpos, hcall]
  cases e with
  | httpStatus code text =>
    have : ¬ code ∈ cfg.statusCodes := by
      simpa [ApiError.retryable] using hnr
    simp only [if_neg this]
  | timeout => rfl
  | connectError m => rfl
  | other n m => rfl

/-- Witness for C5: a 401 (not in the retry set) on the first attempt,
and a timeout on the first attempt, each produce exactly one call and an
empty wait list under the concrete configuration of the C1 witness. -/
theorem retry_nonretryable_single_attempt_witness :
    callApiWithRetry ⟨3, [429, 500, 502, 503, 504], 1, 10⟩
        (fun _ => (.error (.httpStatus 401 "unauthorized") : Except ApiError Nat)) =
      ⟨.error (.httpStatus 401 "unauthorized"), 1, []⟩ ∧
    callApiWithRetry ⟨3, [429, 500, 502, 503, 504], 1, 10⟩
        (fun _ => (.error .timeout : Except ApiError Nat)) =
      ⟨.error .timeout, 1, []⟩ := by
  constructor
  · exact retry_nonretryable_single_attempt (α := Nat)
      ⟨3, [429, 500, 502, 503, 504], 1, 10⟩
      (fun _ => .error (.httpStatus 401 "unauthorized"))
      (.httpStatus 401 "unauthorized") (by decide) rfl (by decide)
  · exact retry_nonretryable_single_attempt (α := Nat)
      ⟨3, [429, 500, 502, 503, 504], 1, 10⟩
      (fun _ => .error .timeout) .timeout (by decide) rfl rfl

/-- C8: for a usage dict carrying `total_tokens`, `_calculate_cost`
returns `(total_tokens / 1000) * cost_per_1k`; in particular 2000 tokens
at 0.4 per 1k cost 0.8; and the empty dict that `data.get("usage", {})`
yields when usage is absent costs `0.0`. -/
theorem cost_formula (costPer1k : ℚ) (fields : List (String × Json)) (t : ℚ)
    (hne : fields ≠ [])
    (hlk : fields.lookup "total_tokens" = some (.num t)) :
    calculate_cost costPer1k (.obj fields) = .ok ((t / 1000) * costPer1k)
    ∧ calculate_cost costPer1k (.obj []) = .ok 0
    ∧ calculate_cost (0.4 : ℚ) (.obj [("total_tokens", .num 2000)]) = .ok (0.8 : ℚ) := by
  refine ⟨?_, rfl, by norm_num [calculate_cost, Json.truthy, Json.dictGet,
    Json.asNum, List.lookup, Except.bind, bind, Except.map, Functor.map,
    pure, Except.pure]⟩
  cases fields with
  | nil => exact absurd rfl hne
  | cons f rest =>
    simp [calculate_cost, Json.truthy, Json.dictGet, Json.asNum, hlk,
      Except.bind, bind, Except.map, Functor.map, pure, Except.pure]

/-- Witness for C8 at the concrete inputs of the claim. -/
theorem cost_formula_witness :
    calculate_cost (0.4 : ℚ) (.obj [("total_tokens", .num 2000)]) = .ok (0.8 : ℚ)
    ∧ calculate_cost (0.4 : ℚ) (.obj []) = .ok 0 := by
  have h := cost_formula (0.4 : ℚ) [("total_tokens", .num 2000)] 2000
    (by simp) rfl
  exact ⟨h.2.2, h.2.1⟩

/-- Replaying one more `log_error` call folds `pushEntry` onto the
replayed log. -/
theorem runLog_append (ops : List RecordOp) (o : RecordOp) :
    runLog (ops ++ [o]) = pushEntry (runLog ops) o.entry := by
  simp [runLog, List.foldl_append, log_error, RecordOp.entry]

/-- Closed form of the diagnostics log: after any sequence of records
starting from the empty log, the log holds exactly the entries of the
last 50 operations, in insertion order. -/
theorem runLog_eq (ops : List RecordOp) :
    runLog ops = (ops.map RecordOp.entry).drop (ops.length - 50) := by
  induction ops using List.reverseRecOn with
  | nil => rfl
  | append_singleton ops o ih =>
    rw [runLog_append, ih, pushEntry]
    simp only [List.map_append, List.map_cons, List.map_nil, List.length_append,
      List.length_cons, List.length_nil]
    by_cases h : ops.length < 50
    · have h0 : ops.length - 50 = 0 := by omega
      have h1 : ops.length + 0 + 1 - 50 = 0 := by omega
      rw [h0, List.drop_zero, if_neg (by simp only [List.length_append,
        List.length_map, List.length_cons, List.length_nil]; omega)]
      rw [h1, List.drop_zero]
    · have hdroplen : ((ops.map RecordOp.entry).drop (ops.length - 50)).length = 50 := by
        simp only [List.length_drop, List.length_map]
        omega
      rw [if_pos (by simp only [List.length_append, hdroplen, List.length_cons,
        List.length_nil]; omega)]
      rw [List.drop_append_eq_append_drop, hdroplen, List.drop_drop,
        List.drop_append_eq_append_drop, List.length_map]
      have he : ops.length + 0 + 1 - 50 - ops.length = 0 := by omega
      have hf : ops.length - 50 + 1 = ops.length + 0 + 1 - 50 := by omega
      have hg : (1 : Nat) - 50 = 0 := by omega
      rw [he, hf, hg, List.drop_zero]

/-- C6: the diagnostics log (i) never exceeds 50 entries after any
sequence of `log_error` calls from the empty initial log, (ii) holds
exactly the last 50 entries in insertion order after 55 insertions,
(iii) stores every `details` string truncated to at most 500 characters,
and (iv) `get_error_log` hands back a freshly allocated copy: reading it
gives the internal log's contents, and overwriting the copy leaves the
internal log unchanged. -/
theorem diag_log_bounded_fifo :
    (∀ ops : List RecordOp, (runLog ops).length ≤ 50)
    ∧ (∀ ops : List RecordOp, ops.length = 55 →
        runLog ops = (ops.map RecordOp.entry).drop 5)
    ∧ (∀ ops : List RecordOp, ∀ e ∈ runLog ops, e.details.length ≤ 500)
    ∧ (∀ s : LogHeap, errorLogAddr < s.heap.length →
        (s.alloc (s.read errorLogAddr)).1.read (s.alloc (s.read errorLogAddr)).2
            = s.read errorLogAddr
          ∧ ∀ v, (((get_error_log s).1.write (get_error_log s).2 v).read errorLogAddr
            = s.read errorLogAddr)) := by
  refine ⟨?_, ?_, ?_, ?_⟩
  · intro ops
    rw [runLog_eq]
    simp [List.length_drop]
    omega
  · intro ops h55
    rw [runLog_eq, h55]
  · intro ops e he
    rw [runLog_eq] at he
    have hmem : e ∈ ops.map RecordOp.entry := List.mem_of_mem_drop he
    rcases List.mem_map.mp hmem with ⟨o, _, rfl⟩
    show (pyTake o.details 500).length ≤ 500
    exact List.length_take_le 500 o.details.data
  · intro s hlt
    constructor
    · show (s.heap ++ [s.read errorLogAddr]).getD s.heap.length [] = s.read errorLogAddr
      rw [List.getD_eq_getElem?_getD, List.getElem?_append_right (Nat.le_refl _)]
      simp
    · intro v
      show ((s.heap ++ [s.read errorLogAddr]).set s.heap.length v).getD errorLogAddr []
          = s.read errorLogAddr
      rw [List.getD_eq_getElem?_getD, List.getElem?_set_ne (by omega),
        List.getElem?_append_left hlt, LogHeap.read, List.getD_eq_getElem?_getD]

/-- Witness for C6: 55 identical records leave exactly the last 50
entries, the length bound holds there, the stored details are within
500 characters, and the copy returned on a one-object heap is
mutation-safe. -/
theorem diag_log_bounded_fifo_witness :
    (runLog (List.replicate 55 ⟨"t", "m", "E", "d", none⟩)).length ≤ 50
    ∧ runLog (List.replicate 55 ⟨"t", "m", "E", "d", none⟩)
        = ((List.replicate 55 (⟨"t", "m", "E", "d", none⟩ : RecordOp)).map
            RecordOp.entry).drop 5
    ∧ ((⟨[[mkDiagEntry "t" "m" "E" "d" none]]⟩ : LogHeap).alloc
          ((⟨[[mkDiagEntry "t" "m" "E" "d" none]]⟩ : LogHeap).read errorLogAddr)).1.read
        ((⟨[[mkDiagEntry "t" "m" "E" "d" none]]⟩ : LogHeap).alloc
          ((⟨[[mkDiagEntry "t" "m" "E" "d" none]]⟩ : LogHeap).read errorLogAddr)).2
        = (⟨[[mkDiagEntry "t" "m" "E" "d" none]]⟩ : LogHeap).read errorLogAddr := by
  refine ⟨diag_log_bounded_fifo.1 _, diag_log_bounded_fifo.2.1 _ (by decide), ?_⟩
  exact (diag_log_bounded_fifo.2.2.2 ⟨[[mkDiagEntry "t" "m" "E" "d" none]]⟩
    (by decide)).1

/-- C7: on a cache miss, resolving an unknown key or a disabled config
fails with the configuration `ValueError` (no network call exists in
`ModelProvider.__init__`), while a known, enabled key is constructed,
cached, and every later resolution returns the cached instance without
reconstruction. -/
theorem provider_resolution (MODELS providers : List (String × ModelCfg))
    (model_key : String) (hmiss : providers.lookup model_key = none) :
    (MODELS.lookup model_key = none →
      get_provider MODELS providers model_key
        = .error ("Unknown model: " ++ model_key))
    ∧ (∀ cfg, MODELS.lookup model_key = some cfg → cfg.enabled = false →
      get_provider MODELS providers model_key
        = .error ("Model " ++ model_key ++ " is not enabled (missing API key)"))
    ∧ (∀ cfg, MODELS.lookup model_key = some cfg → cfg.enabled = true →
      get_provider MODELS providers model_key
          = .ok ⟨providers ++ [(model_key, cfg)], cfg, true⟩
        ∧ ∀ providers2 : List (String × ModelCfg),
            providers2.lookup model_key = some cfg →
            get_provider MODELS providers2 model_key = .ok ⟨providers2, cfg, false⟩) := by
  refine ⟨?_, ?_, ?_⟩
  · intro hunk
    simp [get_provider, hmiss, ModelProvider.init, hunk]
  · intro cfg hfound hdis
    simp [get_provider, hmiss, ModelProvider.init, hfound, hdis]
  · intro cfg hfound hen
    constructor
    · simp [get_provider, hmiss, ModelProvider.init, hfound, hen]
    · intro providers2 hhit
      simp [get_provider, hhit]

/-- Witness for C7 on a two-model registry (one enabled, one disabled)
and an empty provider cache. -/
theorem provider_resolution_witness :
    get_provider
        [("a", ⟨"A", "zai", "key", true, "u", "m", none, none⟩),
         ("b", ⟨"B", "zai", "", false, "u", "m", none, none⟩)] [] "c"
      = .error "Unknown model: c"
    ∧ get_provider
        [("a", ⟨"A", "zai", "key", true, "u", "m", none, none⟩),
         ("b", ⟨"B", "zai", "", false, "u", "m", none, none⟩)] [] "b"
      = .error "Model b is not enabled (missing API key)"
    ∧ get_provider
        [("a", ⟨"A", "zai", "key", true, "u", "m", none, none⟩),
         ("b", ⟨"B", "zai", "", false, "u", "m", none, none⟩)] [] "a"
      = .ok ⟨[("a", ⟨"A", "zai", "key", true, "u", "m", none, none⟩)],
             ⟨"A", "zai", "key", true, "u", "m", none, none⟩, true⟩
    ∧ get_provider
        [("a", ⟨"A", "zai", "key", true, "u", "m", none, none⟩),
         ("b", ⟨"B", "zai", "", false, "u", "m", none, none⟩)]
        [("a", ⟨"A", "zai", "key", true, "u", "m", none, none⟩)] "a"
      = .ok ⟨[("a", ⟨"A", "zai", "key", true, "u", "m", none, none⟩)],
             ⟨"A", "zai", "key", true, "u", "m", none, none⟩, false⟩ := by
  have h := provider_resolution
    [("a", ⟨"A", "zai", "key", true, "u", "m", none, none⟩),
     ("b", ⟨"B", "zai", "", false, "u", "m", none, none⟩)] [] "c" rfl
  have h2 := provider_resolution
    [("a", ⟨"A", "zai", "key", true, "u", "m", none, none⟩),
     ("b", ⟨"B", "zai", "", false, "u", "m", none, none⟩)] [] "b" rfl
  have h3 := provider_resolution
    [("a", ⟨"A", "zai", "key", true, "u", "m", none, none⟩),
     ("b", ⟨"B", "zai", "", false, "u", "m", none, none⟩)] [] "a" rfl
  have h3e := h3.2.2 ⟨"A", "zai", "key", true, "u", "m", none, none⟩ (by rfl) rfl
  exact ⟨h.1 rfl, h2.2.1 _ (by rfl) rfl, h3e.1, h3e.2 _ (by rfl)⟩

/-- C9: a 2xx response whose body lacks the expected shape makes
`verify_code` return a `success: False` dict naming the raised
exception type (KeyError / IndexError / TypeError), with the failure
recorded via `log_error` — no exception propagates. -/
theorem verify_code_malformed_body (config : ModelCfg) (model_key ts : String)
    (data : Json) (e : PyExc) (hex : extractVerdict data = .error e) :
    verify_code config model_key ts (.ok data)
      = ⟨.fail (e.name ++ ": " ++ e.msg) none,
         [mkDiagEntry ts model_key e.name (e.name ++ ": " ++ e.msg) none]⟩ := by
  simp [verify_code, hex, Except.bind, bind]

/-- Witness for C9: an empty `choices` list raises `IndexError`, caught
and converted into a failure dict plus one diagnostics record. -/
theorem verify_code_malformed_body_witness :
    verify_code ⟨"A", "zai", "key", true, "u", "m", none, none⟩ "a" "t"
        (.ok (.obj [("choices", .arr [])]))
      = ⟨.fail "IndexError: list index out of range" none,
         [mkDiagEntry "t" "a" "IndexError" "IndexError: list index out of range" none]⟩ := by
  rw [verify_code_malformed_body ⟨"A", "zai", "key", true, "u", "m", none, none⟩
    "a" "t" (.obj [("choices", .arr [])]) .indexError rfl]
  rfl

/-- Membership in a one-element conditional list. -/
theorem mem_ite_singleton (x s : String) (b : Bool) :
    (x ∈ (if b then [s] else ([] : List String))) ↔ (b = true ∧ x = s) := by
  cases b <;> simp

/-- Membership in a two-element conditional list. -/
theorem mem_ite_pair (x s t : String) (b : Bool) :
    (x ∈ (if b then [s, t] else ([] : List String))) ↔ (b = true ∧ (x = s ∨ x = t)) := by
  cases b <;> simp

/-- Which line is in the cause analysis, by guard. -/
theorem mem_causeLines (x : String) (es : List DiagEntry) :
    x ∈ causeLines es ↔
      (has_401 es = true
        ∧ x = "- **Invalid API Key**: Check your `.env` file. Keys may be expired or incorrect.")
      ∨ (has_429 es = true
        ∧ x = "- **Rate Limited**: You've hit the API rate limit. Wait a few minutes.")
      ∨ (has_timeout es = true
        ∧ x = "- **Timeout**: API is slow or overloaded. Try again later or reduce payload size.")
      ∨ (has_connection es = true
        ∧ x = "- **Connection Error**: Network issue. Check your internet connection.")
      ∨ ((has_401 es || has_429 es || has_timeout es || has_connection es) = false
        ∧ (x = "- Check API provider status pages (z.ai, OpenRouter)"
          ∨ x = "- Verify API keys are valid and have credits")) := by
  simp [causeLines, mem_ite_singleton, mem_ite_pair, List.mem_append,
    Bool.not_eq_true']

/-- C10: `format_error_for_user` returns exactly `"No errors recorded."`
on an empty list; on a non-empty list it renders per-entry lines for the
last 5 entries only (`errors[-5:]`), while each cause-analysis line is
present iff its scan over the *entire* given list hits (and the generic
advice appears iff none of the four scans hit). -/
theorem format_error_structure (es : List DiagEntry) (hne : es ≠ []) :
    format_error_for_user [] = "No errors recorded."
    ∧ format_error_for_user es
        = String.intercalate "\n"
            (["## Recent Errors\n"]
              ++ (es.drop (es.length - 5)).flatMap entryLines
              ++ ["\n## Possible Causes\n"]
              ++ causeLines es)
    ∧ ("- **Invalid API Key**: Check your `.env` file. Keys may be expired or incorrect."
        ∈ causeLines es ↔ ∃ e ∈ es, e.status_code = some 401)
    ∧ ("- **Rate Limited**: You've hit the API rate limit. Wait a few minutes."
        ∈ causeLines es ↔ ∃ e ∈ es, e.status_code = some 429)
    ∧ ("- **Timeout**: API is slow or overloaded. Try again later or reduce payload size."
        ∈ causeLines es ↔ ∃ e ∈ es, containsSub (pyLower e.details) "timeout" = true)
    ∧ ("- **Connection Error**: Network issue. Check your internet connection."
        ∈ causeLines es ↔ ∃ e ∈ es, containsSub (pyLower e.details) "connect" = true) := by
  refine ⟨rfl, ?_, ?_, ?_, ?_, ?_⟩
  · rw [format_error_for_user, if_neg (by simpa [List.isEmpty_iff] using hne)]
  all_goals
    rw [mem_causeLines]
    simp [has_401, has_429, has_timeout, has_connection, List.any_eq_true]

/-- Witness for C10: six entries of which only the first (not among the
displayed last five) carries status 401 — the credential cause line is
still emitted, and the empty list gives the fixed message. -/
theorem format_error_structure_witness :
    format_error_for_user [] = "No errors recorded."
    ∧ "- **Invalid API Key**: Check your `.env` file. Keys may be expired or incorrect."
        ∈ causeLines
          [⟨"t", "m", "HTTP Error", "API Error", some 401⟩,
           ⟨"t", "m", "E", "x", none⟩, ⟨"t", "m", "E", "x", none⟩,
           ⟨"t", "m", "E", "x", none⟩, ⟨"t", "m", "E", "x", none⟩,
           ⟨"t", "m", "E", "x", none⟩] := by
  have h := format_error_structure
    [⟨"t", "m", "HTTP Error", "API Error", some 401⟩,
     ⟨"t", "m", "E", "x", none⟩, ⟨"t", "m", "E", "x", none⟩,
     ⟨"t", "m", "E", "x", none⟩, ⟨"t", "m", "E", "x", none⟩,
     ⟨"t", "m", "E", "x", none⟩] (by simp)
  exact ⟨h.1, h.2.2.1.mpr ⟨⟨"t", "m", "HTTP Error", "API Error", some 401⟩,
    by simp, rfl⟩⟩

/-- The `errors_collected` entry built for a model names that model. -/
theorem collectEntry_model (m : String) (o : AttemptOutcome) :
    (collectEntry m o).model = m := by
  cases o with
  | result run =>
    obtain ⟨oc, lg⟩ := run
    cases oc <;> rfl
  | exc n msg => rfl

/-- A fallback sweep over models that all fail collects one entry per
model in list order, logs each attempt's events in order, attempts every
model, and finds no success. -/
theorem sweepLoop_allFail (behave : String → AttemptOutcome)
    (ts primary_model : String) (ms : List String)
    (hfail : ∀ m ∈ ms, (behave m).failed = true) :
    sweepLoop behave ts primary_model ms =
      ⟨none, ms.map (fun m => collectEntry m (behave m)),
       ms.flatMap (fun m => attemptLogged ts m (behave m)), ms⟩ := by
  induction ms with
  | nil => rfl
  | cons m rest ih =>
    have hm := hfail m (List.mem_cons_self m rest)
    have hrest : ∀ x ∈ rest, (behave x).failed = true :=
      fun x hx => hfail x (List.mem_cons_of_mem m hx)
    rw [sweepLoop]
    cases hb : behave m with
    | result run =>
      obtain ⟨oc, lg⟩ := run
      cases oc with
      | ok res => rw [hb] at hm; simp [AttemptOutcome.failed] at hm
      | fail err code =>
        simp only [ih hrest, List.map_cons, List.flatMap_cons, hb, collectEntry,
          attemptLogged]
    | exc n msg =>
      simp only [ih hrest, List.map_cons, List.flatMap_cons, hb, collectEntry,
        attemptLogged]
      rfl

/-- A fallback sweep whose prefix fails and whose next model succeeds
short-circuits: the success dict is returned with fallback metadata, the
failing prefix is collected, and nothing past the succeeding model is
attempted. -/
theorem sweepLoop_firstSuccess (behave : String → AttemptOutcome)
    (ts primary_model : String) (pre : List String) (m : String)
    (post : List String) (res : SuccessDict) (lg : List DiagEntry)
    (hpre : ∀ x ∈ pre, (behave x).failed = true)
    (hm : behave m = .result ⟨.ok res, lg⟩) :
    sweepLoop behave ts primary_model (pre ++ m :: post) =
      ⟨some { res with
          fallback_used := some true,
          primary_model_failed := some primary_model },
       pre.map (fun x => collectEntry x (behave x)),
       pre.flatMap (fun x => attemptLogged ts x (behave x)) ++ lg,
       pre ++ [m]⟩ := by
  induction pre with
  | nil => simp [sweepLoop, hm]
  | cons x rest ih =>
    have hx := hpre x (List.mem_cons_self x rest)
    have hrest : ∀ y ∈ rest, (behave y).failed = true :=
      fun y hy => hpre y (List.mem_cons_of_mem x hy)
    rw [List.cons_append, sweepLoop]
    cases hb : behave x with
    | result run =>
      obtain ⟨oc, lgx⟩ := run
      cases oc with
      | ok r2 => rw [hb] at hx; simp [AttemptOutcome.failed] at hx
      | fail err code =>
        simp [ih hrest, hb, collectEntry, attemptLogged]
    | exc n msg =>
      simp [ih hrest, hb, collectEntry, attemptLogged]

/-- C3: when every attempt on the primary fails and the fallback list is
a failing prefix, one succeeding model, and anything after it,
`verify_with_fallback` returns that model's success dict extended with
`fallback_used = True` and `primary_model_failed = primary`, and no
model after the succeeding one is attempted. -/
theorem fallback_first_success_short_circuits (behave : String → AttemptOutcome)
    (ts primary_model : String) (pre : List String) (m : String)
    (post : List String) (res : SuccessDict) (lg : List DiagEntry)
    (hprim : (behave primary_model).failed = true)
    (hpre : ∀ x ∈ pre, (behave x).failed = true)
    (hm : behave m = .result ⟨.ok res, lg⟩) :
    (verify_with_fallback behave (pre ++ m :: post) ts primary_model).result
        = .success { res with
            fallback_used := some true,
            primary_model_failed := some primary_model }
    ∧ (verify_with_fallback behave (pre ++ m :: post) ts primary_model).attempted
        = primary_model :: (pre ++ [m]) := by
  rw [verify_with_fallback]
  cases hb : behave primary_model with
  | result run =>
    obtain ⟨oc, lgp⟩ := run
    cases oc with
    | ok r2 => rw [hb] at hprim; simp [AttemptOutcome.failed] at hprim
    | fail err code =>
      rw [sweepLoop_firstSuccess behave ts primary_model pre m post res lg hpre hm]
      exact ⟨rfl, rfl⟩
  | exc n msg =>
    rw [sweepLoop_firstSuccess behave ts primary_model pre m post res lg hpre hm]
    exact ⟨rfl, rfl⟩

/-- Witness for C3: primary `"p"` fails with a returned failure,
fallback list `["f1", "f2", "f3"]` where `"f1"` raises, `"f2"` succeeds
— the run returns `"f2"`'s dict with fallback metadata and never
attempts `"f3"`. -/
theorem fallback_first_success_short_circuits_witness :
    (verify_with_fallback
        (fun k =>
          if k = "f2" then
            .result ⟨.ok ⟨.str "LGTM", "F2", "f2", .obj [], 0, none, none⟩, []⟩
          else if k = "f1" then .exc "RuntimeError" "boom"
          else .result ⟨.fail "API Error: 500 - x" (some (.int 500)), []⟩)
        ["f1", "f2", "f3"] "t" "p").result
      = .success ⟨.str "LGTM", "F2", "f2", .obj [], 0, some true, some "p"⟩
    ∧ (verify_with_fallback
        (fun k =>
          if k = "f2" then
            .result ⟨.ok ⟨.str "LGTM", "F2", "f2", .obj [], 0, none, none⟩, []⟩
          else if k = "f1" then .exc "RuntimeError" "boom"
          else .result ⟨.fail "API Error: 500 - x" (some (.int 500)), []⟩)
        ["f1", "f2", "f3"] "t" "p").attempted
      = ["p", "f1", "f2"] := by
  have h := fallback_first_success_short_circuits
    (fun k =>
      if k = "f2" then
        .result ⟨.ok ⟨.str "LGTM", "F2", "f2", .obj [], 0, none, none⟩, []⟩
      else if k = "f1" then .exc "RuntimeError" "boom"
      else .result ⟨.fail "API Error: 500 - x" (some (.int 500)), []⟩)
    "t" "p" ["f1"] "f2" ["f3"]
    ⟨.str "LGTM", "F2", "f2", .obj [], 0, none, none⟩ []
    (by rfl) (by intro x hx; simp at hx; subst hx; rfl) (by rfl)
  exact ⟨h.1, h.2⟩

/-- Without a 401 code, the credential recommendation is in neither the
429 / timeout / connection branches nor the generic fallback, whichever
of those fire. -/
theorem credentialRec_not_elsewhere (b2 b3 b4 : Bool) :
    credentialRec ∉
      (if ((if b2 then ["⏳ Rate limited - wait a few minutes"] else []) ++
           (if b3 then ["⏱️ Timeout - try smaller code or wait"] else []) ++
           (if b4 then ["🌐 Network error - check connection"] else [])).isEmpty = true
       then ["🔍 Check API provider status pages", "💳 Verify API keys have credits"]
       else ((if b2 then ["⏳ Rate limited - wait a few minutes"] else []) ++
             (if b3 then ["⏱️ Timeout - try smaller code or wait"] else []) ++
             (if b4 then ["🌐 Network error - check connection"] else []))) := by
  cases b2 <;> cases b3 <;> cases b4 <;> decide

/-- A collected `error_code` of int 401 is kept by the truthiness filter,
so the credential recommendation appears in the all-failed dict exactly
when some collected failure carries status code 401. -/
theorem mkAllFailed_credential (p : String) (f : List String)
    (errs : List CollectedError) :
    credentialRec ∈ (mkAllFailed p f errs).recsOf
      ↔ ∃ e ∈ errs, e.error_code = some (.int 401) := by
  have hiff : ((errs.filterMap fun e => e.error_code).filter PyCode.truthy).contains
        (PyCode.int 401) = true
      ↔ ∃ e ∈ errs, e.error_code = some (.int 401) := by
    rw [List.elem_iff, List.mem_filter]
    simp [List.mem_filterMap, PyCode.truthy]
  rw [mkAllFailed]
  simp only [FallbackResult.recsOf]
  by_cases h : ((errs.filterMap fun e => e.error_code).filter PyCode.truthy).contains
      (PyCode.int 401) = true
  · rw [if_pos h, List.singleton_append, if_neg (by simp)]
    constructor
    · intro _
      exact hiff.mp h
    · intro _
      exact List.mem_cons_self _ _
  · have hnex : ¬ ∃ e ∈ errs, e.error_code = some (PyCode.int 401) :=
      fun hex => h (hiff.mpr hex)
    rw [if_neg h, List.nil_append]
    constructor
    · intro hmem
      exact (credentialRec_not_elsewhere _ _ _ hmem).elim
    · intro hex
      exact (hnex hex).elim

/-- The `errors` entry of the all-failed dict is the collected list. -/
theorem mkAllFailed_errorsOf (p : String) (f : List String)
    (errs : List CollectedError) :
    (mkAllFailed p f errs).errorsOf = errs := rfl

/-- C2: when the primary and every fallback model fail,
`verify_with_fallback` returns the all-failed dict whose `errors` list
has exactly one entry per attempted model — primary first, then the
fallback models in list order — and whose recommendations contain the
credential hint iff some collected failure carries status code 401. -/
theorem all_models_fail_result (behave : String → AttemptOutcome)
    (fallback_models : List String) (ts primary_model : String)
    (hprim : (behave primary_model).failed = true)
    (hfb : ∀ m ∈ fallback_models, (behave m).failed = true) :
    (verify_with_fallback behave fallback_models ts primary_model).result
        = mkAllFailed primary_model fallback_models
            (collectEntry primary_model (behave primary_model)
              :: fallback_models.map (fun m => collectEntry m (behave m)))
    ∧ ((verify_with_fallback behave fallback_models ts primary_model).result.errorsOf).map
          CollectedError.model
        = primary_model :: fallback_models
    ∧ (credentialRec
          ∈ (verify_with_fallback behave fallback_models ts primary_model).result.recsOf
        ↔ ∃ e ∈ (verify_with_fallback behave fallback_models
              ts primary_model).result.errorsOf,
            e.error_code = some (.int 401)) := by
  have hres : (verify_with_fallback behave fallback_models ts primary_model).result
      = mkAllFailed primary_model fallback_models
          (collectEntry primary_model (behave primary_model)
            :: fallback_models.map (fun m => collectEntry m (behave m))) := by
    rw [verify_with_fallback]
    cases hb : behave primary_model with
    | result run =>
      obtain ⟨oc, lgp⟩ := run
      cases oc with
      | ok res => rw [hb] at hprim; simp [AttemptOutcome.failed] at hprim
      | fail err code =>
        rw [sweepLoop_allFail behave ts primary_model fallback_models hfb]
        rfl
    | exc n msg =>
      rw [sweepLoop_allFail behave ts primary_model fallback_models hfb]
      rfl
  refine ⟨hres, ?_, ?_⟩
  · rw [hres, mkAllFailed_errorsOf, List.map_cons, collectEntry_model,
      List.map_map]
    have hcomp : CollectedError.model ∘ (fun m => collectEntry m (behave m))
        = fun m => m := funext fun m => collectEntry_model m (behave m)
    rw [hcomp, List.map_id']
  · rw [hres, mkAllFailed_errorsOf]
    exact mkAllFailed_credential primary_model fallback_models _

/-- Witness for C2: primary `"p"` fails with HTTP 401, the single
fallback `"f1"` raises — two entries in order, credential hint present. -/
theorem all_models_fail_result_witness :
    ((verify_with_fallback
        (fun k =>
          if k = "p" then
            .result ⟨.fail "API Error: 401 - unauthorized" (some (.int 401)), []⟩
          else .exc "RuntimeError" "boom")
        ["f1"] "t" "p").result.errorsOf).map CollectedError.model = ["p", "f1"]
    ∧ credentialRec
        ∈ (verify_with_fallback
            (fun k =>
              if k = "p" then
                .result ⟨.fail "API Error: 401 - unauthorized" (some (.int 401)), []⟩
              else .exc "RuntimeError" "boom")
            ["f1"] "t" "p").result.recsOf := by
  have h := all_models_fail_result
    (fun k =>
      if k = "p" then
        .result ⟨.fail "API Error: 401 - unauthorized" (some (.int 401)), []⟩
      else .exc "RuntimeError" "boom")
    ["f1"] "t" "p" (by rfl) (by intro m hm; simp at hm; subst hm; rfl)
  refine ⟨h.2.1, h.2.2.mpr
    ⟨collectEntry "p"
        ((fun k =>
          if k = "p" then
            AttemptOutcome.result
              ⟨.fail "API Error: 401 - unauthorized" (some (.int 401)), []⟩
          else AttemptOutcome.exc "RuntimeError" "boom") "p"), ?_, rfl⟩⟩
  rw [h.1, mkAllFailed_errorsOf]
  exact List.mem_cons_self _ _

/-- Every model the fallback sweep attempts whose attempt raises is
recorded: a `Provider Error` diagnostics entry is logged and its failure
entry is collected. -/
theorem sweepLoop_exc_records (behave : String → AttemptOutcome)
    (ts primary_model : String) (ms : List String) :
    ∀ m ∈ (sweepLoop behave ts primary_model ms).attempted, ∀ n msg,
      behave m = .exc n msg →
      mkDiagEntry ts m "Provider Error" (n ++ ": " ++ msg) none
          ∈ (sweepLoop behave ts primary_model ms).logged
        ∧ (⟨m, n ++ ": " ++ msg, none⟩ : CollectedError)
          ∈ (sweepLoop behave ts primary_model ms).collected := by
  induction ms with
  | nil => intro m hm; simp [sweepLoop] at hm
  | cons x rest ih =>
    intro m hm n msg hexc
    rw [sweepLoop] at hm ⊢
    cases hb : behave x with
    | result run =>
      obtain ⟨oc, lg⟩ := run
      cases oc with
      | ok res =>
        rw [hb] at hm
        have hmx : m = x := by simpa using hm
        subst hmx
        rw [hb] at hexc
        simp at hexc
      | fail err code =>
        rw [hb] at hm
        rcases List.mem_cons.mp hm with rfl | hm2
        · rw [hb] at hexc
          simp at hexc
        · have hr := ih m hm2 n msg hexc
          exact ⟨List.mem_append_right _ hr.1, List.mem_cons_of_mem _ hr.2⟩
    | exc n2 msg2 =>
      rw [hb] at hm
      rcases List.mem_cons.mp hm with rfl | hm2
      · rw [hb] at hexc
        injection hexc with h1 h2
        subst h1
        subst h2
        exact ⟨List.mem_cons_self _ _, List.mem_cons_self _ _⟩
      · have hr := ih m hm2 n msg hexc
        exact ⟨List.mem_cons_of_mem _ hr.1, List.mem_cons_of_mem _ hr.2⟩

/-- C4: for every behaviour of the providers — including attempts that
raise arbitrary exceptions — `verify_with_fallback` returns a success or
an all-failed dict (no exception escapes); every attempted model whose
attempt raised has its `Provider Error` entry in the diagnostics events,
and, when the run ends all-failed, its entry in the returned `errors`
list. -/
theorem orchestrator_never_raises (behave : String → AttemptOutcome)
    (fallback_models : List String) (ts primary_model : String) :
    ((∃ res, (verify_with_fallback behave fallback_models ts primary_model).result
        = .success res)
      ∨ (∃ err det recs errs,
          (verify_with_fallback behave fallback_models ts primary_model).result
            = .allFailed err det recs errs))
    ∧ (∀ m ∈ (verify_with_fallback behave fallback_models ts primary_model).attempted,
        ∀ n msg, behave m = .exc n msg →
          mkDiagEntry ts m "Provider Error" (n ++ ": " ++ msg) none
              ∈ (verify_with_fallback behave fallback_models ts primary_model).logged
            ∧ ∀ err det recs errs,
                (verify_with_fallback behave fallback_models ts primary_model).result
                  = .allFailed err det recs errs →
                (⟨m, n ++ ": " ++ msg, none⟩ : CollectedError) ∈ errs) := by
  rw [verify_with_fallback]
  cases hb : behave primary_model with
  | result run =>
    obtain ⟨oc, lgp⟩ := run
    cases oc with
    | ok res =>
      refine ⟨Or.inl ⟨res, rfl⟩, ?_⟩
      intro m hm n msg hexc
      have hmp : m = primary_model := by simpa using hm
      subst hmp
      rw [hb] at hexc
      simp at hexc
    | fail err code =>
      cases hsw : sweepLoop behave ts primary_model fallback_models with
      | mk s c l a =>
        cases s with
        | some res =>
          refine ⟨Or.inl ⟨res, rfl⟩, ?_⟩
          intro m hm n msg hexc
          rcases List.mem_cons.mp hm with rfl | hm2
          · rw [hb] at hexc
            simp at hexc
          · have hr := sweepLoop_exc_records behave ts primary_model fallback_models
              m (by rw [hsw]; exact hm2) n msg hexc
            rw [hsw] at hr
            refine ⟨List.mem_append_right _ hr.1, ?_⟩
            intro err2 det recs errs heq
            simp at heq
        | none =>
          refine ⟨Or.inr ⟨_, _, _, _, rfl⟩, ?_⟩
          intro m hm n msg hexc
          rcases List.mem_cons.mp hm with rfl | hm2
          · rw [hb] at hexc
            simp at hexc
          · have hr := sweepLoop_exc_records behave ts primary_model fallback_models
              m (by rw [hsw]; exact hm2) n msg hexc
            rw [hsw] at hr
            refine ⟨List.mem_append_right _ hr.1, ?_⟩
            intro err2 det recs errs heq
            have hE := congrArg FallbackResult.errorsOf heq
            rw [mkAllFailed_errorsOf] at hE
            simp only [FallbackResult.errorsOf] at hE
            rw [← hE]
            exact List.mem_cons_of_mem _ hr.2
  | exc n0 msg0 =>
    cases hsw : sweepLoop behave ts primary_model fallback_models with
    | mk s c l a =>
      cases s with
      | some res =>
        refine ⟨Or.inl ⟨res, rfl⟩, ?_⟩
        intro m hm n msg hexc
        rcases List.mem_cons.mp hm with rfl | hm2
        · rw [hb] at hexc
          injection hexc with h1 h2
          subst h1
          subst h2
          refine ⟨List.mem_append_left _ (List.mem_cons_self _ _), ?_⟩
          intro err2 det recs errs heq
          simp at heq
        · have hr := sweepLoop_exc_records behave ts primary_model fallback_models
            m (by rw [hsw]; exact hm2) n msg hexc
          rw [hsw] at hr
          refine ⟨List.mem_append_right _ hr.1, ?_⟩
          intro err2 det recs errs heq
          simp at heq
      | none =>
        refine ⟨Or.inr ⟨_, _, _, _, rfl⟩, ?_⟩
        intro m hm n msg hexc
        rcases List.mem_cons.mp hm with rfl | hm2
        · rw [hb] at hexc
          injection hexc with h1 h2
          subst h1
          subst h2
          refine ⟨List.mem_append_left _ (List.mem_cons_self _ _), ?_⟩
          intro err2 det recs errs heq
          have hE := congrArg FallbackResult.errorsOf heq
          rw [mkAllFailed_errorsOf] at hE
          simp only [FallbackResult.errorsOf] at hE
          rw [← hE]
          exact List.mem_cons_self _ _
        · have hr := sweepLoop_exc_records behave ts primary_model fallback_models
            m (by rw [hsw]; exact hm2) n msg hexc
          rw [hsw] at hr
          refine ⟨List.mem_append_right _ hr.1, ?_⟩
          intro err2 det recs errs heq
          have hE := congrArg FallbackResult.errorsOf heq
          rw [mkAllFailed_errorsOf] at hE
          simp only [FallbackResult.errorsOf] at hE
          rw [← hE]
          exact List.mem_cons_of_mem _ hr.2

/-- Witness for C4: the primary `"p"` raises `RuntimeError`, the single
fallback `"f"` returns a failure — the run still returns a dict (here
all-failed) and the `Provider Error` record for `"p"` is logged. -/
theorem orchestrator_never_raises_witness :
    mkDiagEntry "t" "p" "Provider Error" "RuntimeError: boom" none
        ∈ (verify_with_fallback
            (fun k =>
              if k = "p" then .exc "RuntimeError" "boom"
              else .result ⟨.fail "API Error: 500 - x" (some (.int 500)), []⟩)
            ["f"] "t" "p").logged
    ∧ ((∃ res, (verify_with_fallback
            (fun k =>
              if k = "p" then .exc "RuntimeError" "boom"
              else .result ⟨.fail "API Error: 500 - x" (some (.int 500)), []⟩)
            ["f"] "t" "p").result = .success res)
      ∨ (∃ err det recs errs, (verify_with_fallback
            (fun k =>
              if k = "p" then .exc "RuntimeError" "boom"
              else .result ⟨.fail "API Error: 500 - x" (some (.int 500)), []⟩)
            ["f"] "t" "p").result = .allFailed err det recs errs)) := by
  have h := orchestrator_never_raises
    (fun k =>
      if k = "p" then .exc "RuntimeError" "boom"
      else .result ⟨.fail "API Error: 500 - x" (some (.int 500)), []⟩)
    ["f"] "t" "p"
  have h2 := h.2 "p" (List.mem_cons_self _ _) "RuntimeError" "boom" (by rfl)
  exact ⟨h2.1, h.1⟩

end Argus
